import Mathlib

/-!
Verification of the CENO molecular-dynamics progress-monitoring scripts
(src/MDS/PL/MD_progress-report_english_v2.py and src/MDS/PL/MD_local_progress_report.py)
against their natural-language specification.

The Python code is shallowly embedded: the file system observed by the scripts
is a record of pure functions (directory listing, existence checks, read
outcomes, recursive-traversal outcomes), exceptions raised by the interpreter
are modelled as Option / Except values, and Python float arithmetic on the
fixed stage weights is modelled by exact rational arithmetic over ℚ.
-/

namespace CENO

/-- A file-system path, as the list of its name components relative to the
scanned input directory. -/
abbrev FPath := List String

/-- Character-list test: does the first list stand at the head of the second.
Used to embed the Python substring operator. -/
def leadsWith : List Char → List Char → Bool
  | [], _ => true
  | _ :: _, [] => false
  | a :: as, b :: bs => if a = b then leadsWith as bs else false

/-- Does the needle occur contiguously anywhere in the haystack. -/
def hasSub (needle : List Char) : List Char → Bool
  | [] => needle.isEmpty
  | c :: rest => leadsWith needle (c :: rest) || hasSub needle rest

/-- Embedding of the Python membership test on strings:
needle occurs as a contiguous substring of the haystack. -/
def strContains (haystack needle : String) : Bool :=
  hasSub needle.data haystack.data

/-- Embedding of the Python str.endswith test: the suffix argument stands at
the end of the string. -/
def strEndsWith (s suff : String) : Bool :=
  leadsWith suff.data.reverse s.data.reverse

/-- The completion marker searched for in every stage log
(MD_progress-report_english_v2.py line 59). -/
def marker : String := "Finished mdrun on rank 0"

/-- One entry produced while recursively traversing a folder
(folder.rglob in get_folder_size, lines 77-79): a regular file with its
byte size, a non-file entry, or an entry whose inspection raises. -/
inductive FsEntry
  | file (size : Nat)
  | dir
  | fault
deriving DecidableEq

/-- True for entries whose inspection does not raise. -/
def liveEntry : FsEntry → Bool
  | FsEntry.fault => false
  | _ => true

/-- Byte contribution of a single traversal entry. -/
def entrySize : FsEntry → Nat
  | FsEntry.file s => s
  | _ => 0

/-- Total byte size of a list of traversal entries. -/
def sumFileSizes (l : List FsEntry) : Nat := (l.map entrySize).sum

/-- The file-system state observed by one pipeline run.
listing models input_dir.iterdir() as (name, is_dir) pairs;
pathExists models Path.exists; readResult models opening and reading a
file, with none standing for a raised exception (permission, I/O or
encoding fault); tree models the sequence of entries that folder.rglob
yields for a folder, faults included. -/
structure FS where
  listing : List (String × Bool)
  pathExists : FPath → Bool
  readResult : FPath → Option String
  tree : FPath → List FsEntry

/-- Embedding of get_protein_folders (lines 31-41): the immediate children
of the input directory that are directories and whose name ends with the
suffix marker. Each returned unit is its root-relative path. -/
def get_protein_folders (fs : FS) : List FPath :=
  (fs.listing.filter (fun e => e.2 && strEndsWith e.1 "_MDS")).map (fun e => [e.1])

/-- Embedding of is_step_completed (lines 43-63): if the log file exists,
read it and search for the marker; a raised read error is caught, logged
and turned into false; a missing file is false. -/
def is_step_completed (fs : FS) (folder : FPath) (log_filename : String) : Bool :=
  let log_file := folder ++ [log_filename]
  if fs.pathExists log_file then
    match fs.readResult log_file with
    | some log_content => strContains log_content marker
    | none => false
  else false

/-- Embedding of the loop body of get_folder_size (lines 75-82): the single
try block wraps the whole for loop, so file entries are summed until the
first entry whose inspection raises; that exception aborts the loop and the
sum accumulated so far is kept. -/
def sumUntilFault : List FsEntry → Nat
  | [] => 0
  | FsEntry.file s :: rest => s + sumUntilFault rest
  | FsEntry.dir :: rest => sumUntilFault rest
  | FsEntry.fault :: _ => 0

/-- Embedding of get_folder_size (lines 65-82): total bytes found before the
first traversal fault, converted to megabytes. -/
def get_folder_size (fs : FS) (folder : FPath) : ℚ :=
  (sumUntilFault (fs.tree folder) : ℚ) / (1024 ^ 2)

/-- The fixed four-stage pipeline. -/
inductive Stage
  | EM
  | NVT
  | NPT
  | MD
deriving DecidableEq

/-- The fixed progress weight of each stage (lines 100-103). -/
def weight : Stage → ℚ
  | Stage.EM => 1 / 12
  | Stage.NVT => 1 / 12
  | Stage.NPT => 1 / 12
  | Stage.MD => 9 / 12

/-- The stages in their fixed order. -/
def stages : List Stage := [Stage.EM, Stage.NVT, Stage.NPT, Stage.MD]

/-- Stage-completion flags as a function on stages. -/
def stageFlag (a b c d : Bool) : Stage → Bool
  | Stage.EM => a
  | Stage.NVT => b
  | Stage.NPT => c
  | Stage.MD => d

/-- The progress expression of lines 100-104: the weighted sum of the four
completion flags, converted to a percentage. -/
def progressOf (em_done nvt_done npt_done md_done : Bool) : ℚ :=
  ((if em_done then (1 : ℚ) / 12 else 0) +
   (if nvt_done then (1 : ℚ) / 12 else 0) +
   (if npt_done then (1 : ℚ) / 12 else 0) +
   (if md_done then (9 : ℚ) / 12 else 0)) * 100

/-- The tuple returned by process_folder (line 109). -/
structure UnitResult where
  name : String
  em_done : Bool
  nvt_done : Bool
  npt_done : Bool
  md_done : Bool
  progress : ℚ
  folder_size : ℚ
deriving DecidableEq

/-- The name of a unit folder: its last path component. -/
def pathName (p : FPath) : String := p.getLastD ""

/-- Embedding of process_folder (lines 84-109). Note line 97: the MD log is
looked up under the subdirectory named analisis. -/
def process_folder (fs : FS) (folder : FPath) : UnitResult :=
  let em_done := is_step_completed fs folder "EM.log"
  let nvt_done := is_step_completed fs folder "NVT.log"
  let npt_done := is_step_completed fs folder "NPT.log"
  let md_done := is_step_completed fs (folder ++ ["analisis"]) "MD.log"
  let progress := progressOf em_done nvt_done npt_done md_done
  let folder_size := get_folder_size fs folder
  ⟨pathName folder, em_done, nvt_done, npt_done, md_done, progress, folder_size⟩

/-- Completion of a stage as recorded in a UnitResult. -/
def stageDone (r : UnitResult) : Stage → Bool :=
  stageFlag r.em_done r.nvt_done r.npt_done r.md_done

/-- The fixed evidence-file path of each stage relative to a unit folder, as
read by process_folder: EM.log, NVT.log and NPT.log directly under the unit,
MD.log under the subdirectory named analisis (line 97). -/
def evidencePath (folder : FPath) : Stage → FPath
  | Stage.EM => folder ++ ["EM.log"]
  | Stage.NVT => folder ++ ["NVT.log"]
  | Stage.NPT => folder ++ ["NPT.log"]
  | Stage.MD => folder ++ ["analisis", "MD.log"]

/-- Outcome of opening and reading a path and searching for the marker,
with a raised read error turned into false. -/
def markerRead (fs : FS) (p : FPath) : Bool :=
  match fs.readResult p with
  | some c => strContains c marker
  | none => false

/-- Concrete file system: one unit with EM, NVT and NPT logs carrying the
completion marker and no MD log. -/
def fsEmNvtNpt : FS :=
  ⟨[("P_MDS", true)],
   fun p => decide (p = ["P_MDS", "EM.log"] ∨ p = ["P_MDS", "NVT.log"] ∨ p = ["P_MDS", "NPT.log"]),
   fun p =>
     if p = ["P_MDS", "EM.log"] ∨ p = ["P_MDS", "NVT.log"] ∨ p = ["P_MDS", "NPT.log"] then
       some marker
     else none,
   fun _ => []⟩

/-- Concrete file system: one unit whose only evidence file is the MD log
under the analisis subdirectory. -/
def fsMdOnly : FS :=
  ⟨[("P_MDS", true)],
   fun p => decide (p = ["P_MDS", "analisis", "MD.log"]),
   fun p => if p = ["P_MDS", "analisis", "MD.log"] then some marker else none,
   fun _ => []⟩

/-- Concrete file system: one unit with all four evidence files carrying the
completion marker, the marker surrounded by further log text. -/
def fsAllDone : FS :=
  ⟨[("P_MDS", true)],
   fun p =>
     decide (p = ["P_MDS", "EM.log"] ∨ p = ["P_MDS", "NVT.log"] ∨
       p = ["P_MDS", "NPT.log"] ∨ p = ["P_MDS", "analisis", "MD.log"]),
   fun p =>
     if p = ["P_MDS", "EM.log"] ∨ p = ["P_MDS", "NVT.log"] ∨
         p = ["P_MDS", "NPT.log"] ∨ p = ["P_MDS", "analisis", "MD.log"] then
       some "gromacs log tail. Finished mdrun on rank 0 out of 4 ranks."
     else none,
   fun _ => []⟩

/-- Concrete file system: one unit with no evidence files at all. -/
def fsNoneDone : FS :=
  ⟨[("P_MDS", true)], fun _ => false, fun _ => none, fun _ => []⟩


/-- The progress expression equals 100 times the weighted sum over the
completed stages, and lies between 0 and 100. -/
theorem progressOf_spec (a b c d : Bool) :
    progressOf a b c d =
      100 * ((stages.filter (stageFlag a b c d)).map weight).sum ∧
    0 ≤ progressOf a b c d ∧ progressOf a b c d ≤ 100 := by
  cases a <;> cases b <;> cases c <;> cases d <;>
    norm_num [progressOf, stages, stageFlag, weight, List.filter]

/-- The progress expression reaches the extreme values 0 and 100 exactly at
the all-false and all-true flag vectors, and is strictly between them
otherwise. -/
theorem progressOf_extremes (a b c d : Bool) :
    (progressOf a b c d = 100 ↔ a = true ∧ b = true ∧ c = true ∧ d = true) ∧
    (progressOf a b c d = 0 ↔ a = false ∧ b = false ∧ c = false ∧ d = false) ∧
    ((¬(a = true ∧ b = true ∧ c = true ∧ d = true) ∧
      ¬(a = false ∧ b = false ∧ c = false ∧ d = false)) →
      0 < progressOf a b c d ∧ progressOf a b c d < 100) := by
  cases a <;> cases b <;> cases c <;> cases d <;> norm_num [progressOf]

/-- Claim C1: for every unit, the progress percentage computed by
process_folder equals exactly 100 times the sum of the fixed weights
(EM and NVT and NPT at 1/12, MD at 9/12) of the stages whose checks
returned true and lies in the interval from 0 to 100; in particular, EM,
NVT and NPT done with MD not done gives 25, only MD done gives 75, all
four done gives 100, and none done gives 0. -/
theorem c1_progress_weighted_sum :
    (∀ (fs : FS) (folder : FPath),
        (process_folder fs folder).progress =
          100 * ((stages.filter (stageDone (process_folder fs folder))).map weight).sum ∧
        0 ≤ (process_folder fs folder).progress ∧
        (process_folder fs folder).progress ≤ 100) ∧
    (process_folder fsEmNvtNpt ["P_MDS"]).progress = 25 ∧
    (process_folder fsMdOnly ["P_MDS"]).progress = 75 ∧
    (process_folder fsAllDone ["P_MDS"]).progress = 100 ∧
    (process_folder fsNoneDone ["P_MDS"]).progress = 0 := by
  refine ⟨fun fs folder => progressOf_spec _ _ _ _, ?_, ?_, ?_, ?_⟩
  · have h1 : is_step_completed fsEmNvtNpt ["P_MDS"] "EM.log" = true := by decide
    have h2 : is_step_completed fsEmNvtNpt ["P_MDS"] "NVT.log" = true := by decide
    have h3 : is_step_completed fsEmNvtNpt ["P_MDS"] "NPT.log" = true := by decide
    have h4 : is_step_completed fsEmNvtNpt ["P_MDS", "analisis"] "MD.log" = false := by decide
    simp [process_folder, h1, h2, h3, h4, progressOf]
    norm_num
  · have h1 : is_step_completed fsMdOnly ["P_MDS"] "EM.log" = false := by decide
    have h2 : is_step_completed fsMdOnly ["P_MDS"] "NVT.log" = false := by decide
    have h3 : is_step_completed fsMdOnly ["P_MDS"] "NPT.log" = false := by decide
    have h4 : is_step_completed fsMdOnly ["P_MDS", "analisis"] "MD.log" = true := by decide
    simp [process_folder, h1, h2, h3, h4, progressOf]
    norm_num
  · have h1 : is_step_completed fsAllDone ["P_MDS"] "EM.log" = true := by decide
    have h2 : is_step_completed fsAllDone ["P_MDS"] "NVT.log" = true := by decide
    have h3 : is_step_completed fsAllDone ["P_MDS"] "NPT.log" = true := by decide
    have h4 : is_step_completed fsAllDone ["P_MDS", "analisis"] "MD.log" = true := by decide
    simp [process_folder, h1, h2, h3, h4, progressOf]
    norm_num
  · have h1 : is_step_completed fsNoneDone ["P_MDS"] "EM.log" = false := by decide
    have h2 : is_step_completed fsNoneDone ["P_MDS"] "NVT.log" = false := by decide
    have h3 : is_step_completed fsNoneDone ["P_MDS"] "NPT.log" = false := by decide
    have h4 : is_step_completed fsNoneDone ["P_MDS", "analisis"] "MD.log" = false := by decide
    simp [process_folder, h1, h2, h3, h4, progressOf]

/-- Claim C10: for every unit, the per-unit progress computed by
process_folder equals exactly 100 iff all four stage checks return true and
equals exactly 0 iff all four return false; the four weights are strictly
positive and sum to 1, so any strictly partial completion yields a value
strictly between 0 and 100. -/
theorem c10_progress_extremes :
    ((stages.map weight).sum = 1 ∧ ∀ s : Stage, 0 < weight s) ∧
    (∀ (fs : FS) (folder : FPath),
      ((process_folder fs folder).progress = 100 ↔
        (process_folder fs folder).em_done = true ∧
        (process_folder fs folder).nvt_done = true ∧
        (process_folder fs folder).npt_done = true ∧
        (process_folder fs folder).md_done = true) ∧
      ((process_folder fs folder).progress = 0 ↔
        (process_folder fs folder).em_done = false ∧
        (process_folder fs folder).nvt_done = false ∧
        (process_folder fs folder).npt_done = false ∧
        (process_folder fs folder).md_done = false) ∧
      ((¬((process_folder fs folder).em_done = true ∧
          (process_folder fs folder).nvt_done = true ∧
          (process_folder fs folder).npt_done = true ∧
          (process_folder fs folder).md_done = true) ∧
        ¬((process_folder fs folder).em_done = false ∧
          (process_folder fs folder).nvt_done = false ∧
          (process_folder fs folder).npt_done = false ∧
          (process_folder fs folder).md_done = false)) →
        0 < (process_folder fs folder).progress ∧
        (process_folder fs folder).progress < 100)) := by
  constructor
  · constructor
    · norm_num [stages, weight]
    · intro s; cases s <;> norm_num [weight]
  · intro fs folder
    exact progressOf_extremes _ _ _ _

/-- Witness for claim C10: the concrete unit with EM, NVT and NPT completed
and MD not completed has progress strictly between 0 and 100. -/
theorem c10_progress_extremes_witness :
    0 < (process_folder fsEmNvtNpt ["P_MDS"]).progress ∧
    (process_folder fsEmNvtNpt ["P_MDS"]).progress < 100 := by
  refine ((c10_progress_extremes.2 fsEmNvtNpt ["P_MDS"]).2.2) ⟨?_, ?_⟩
  · intro h
    have h4 : is_step_completed fsEmNvtNpt (["P_MDS"] ++ ["analisis"]) "MD.log" = false := by
      decide
    have := h.2.2.2
    simp only [process_folder] at this
    rw [this] at h4
    exact absurd h4 (by simp)
  · intro h
    have h1 : is_step_completed fsEmNvtNpt ["P_MDS"] "EM.log" = true := by decide
    have := h.1
    simp only [process_folder] at this
    rw [this] at h1
    exact absurd h1 (by simp)

/-- The stage check equals: the evidence file exists and reading it yields
contents containing the marker. -/
theorem is_step_completed_eq (fs : FS) (folder : FPath) (log_filename : String) :
    is_step_completed fs folder log_filename =
      (fs.pathExists (folder ++ [log_filename]) &&
        markerRead fs (folder ++ [log_filename])) := by
  unfold is_step_completed markerRead
  cases hx : fs.pathExists (folder ++ [log_filename]) <;>
    cases hr : fs.readResult (folder ++ [log_filename]) <;> simp [hx, hr]

/-- Claim C6: for every unit and stage, the stage-completion check returns
true iff the evidence file exists, is readable, and its full contents
contain the literal marker substring; a missing file yields false, and a
raised read failure is caught and yields false instead of propagating (the
check is a total boolean function of the observed file system). -/
theorem c6_stage_check_semantics (fs : FS) (folder : FPath) (log_filename : String) :
    (is_step_completed fs folder log_filename = true ↔
      (fs.pathExists (folder ++ [log_filename]) = true ∧
        ∃ c, fs.readResult (folder ++ [log_filename]) = some c ∧
          strContains c marker = true)) ∧
    (fs.pathExists (folder ++ [log_filename]) = false →
      is_step_completed fs folder log_filename = false) ∧
    (fs.readResult (folder ++ [log_filename]) = none →
      is_step_completed fs folder log_filename = false) := by
  unfold is_step_completed
  cases hx : fs.pathExists (folder ++ [log_filename]) <;>
    cases hr : fs.readResult (folder ++ [log_filename]) <;>
      simp [hx, hr]

/-- Concrete file system in which the EM log exists but every read raises. -/
def fsReadFault : FS :=
  ⟨[("u_MDS", true)], fun p => decide (p = ["u_MDS", "EM.log"]), fun _ => none, fun _ => []⟩

/-- Witness for claim C6: on a file system where the EM log exists but
reading it raises, the check returns false instead of propagating. -/
theorem c6_stage_check_semantics_witness :
    is_step_completed fsReadFault ["u_MDS"] "EM.log" = false :=
  (c6_stage_check_semantics fsReadFault ["u_MDS"] "EM.log").2.2 rfl

/-- Concrete file system whose only file is a marker-carrying MD log under
the subdirectory named analysis, the spelling the specification claims. -/
def fsSpelledAnalysis : FS :=
  ⟨[("u_MDS", true)],
   fun p => decide (p = ["u_MDS", "analysis", "MD.log"]),
   fun p => if p = ["u_MDS", "analysis", "MD.log"] then some marker else none,
   fun _ => []⟩

/-- Counterexample to claim C5: a unit holding a completed MD log at
<unit>/analysis/MD.log, the path the claim names, is reported as MD not
completed by process_folder, even though the check applied at that path
would return true: the code reads <unit>/analisis/MD.log instead. -/
theorem c5_cex_analysis_spelling :
    (process_folder fsSpelledAnalysis ["u_MDS"]).md_done = false ∧
    is_step_completed fsSpelledAnalysis ["u_MDS", "analysis"] "MD.log" = true := by
  constructor <;> decide

/-- Claim C5 as amended: for every unit and stage, the evidence consulted by
process_folder is the file at the stage's fixed relative path: EM.log,
NVT.log and NPT.log directly under the unit directory and MD.log under the
subdirectory named analisis (not analysis). -/
theorem c5_evidence_paths (fs : FS) (folder : FPath) (s : Stage) :
    stageDone (process_folder fs folder) s =
      (fs.pathExists (evidencePath folder s) &&
        markerRead fs (evidencePath folder s)) := by
  cases s
  · exact is_step_completed_eq fs folder "EM.log"
  · exact is_step_completed_eq fs folder "NVT.log"
  · exact is_step_completed_eq fs folder "NPT.log"
  · have h := is_step_completed_eq fs (folder ++ ["analisis"]) "MD.log"
    rw [List.append_assoc] at h
    exact h

/-- The loop of get_folder_size sums exactly the file entries that come
before the first fault in the traversal sequence. -/
theorem sumUntilFault_eq_takeWhile (l : List FsEntry) :
    sumUntilFault l = sumFileSizes (l.takeWhile liveEntry) := by
  induction l with
  | nil => rfl
  | cons e t ih =>
    cases e <;> simp [sumUntilFault, sumFileSizes, List.takeWhile_cons, liveEntry, entrySize, ih]

/-- Concrete file system: one unit whose traversal meets a faulting entry
first and a one-mebibyte file after it. -/
def fsFaultTree : FS :=
  ⟨[("u_MDS", true)], fun _ => false, fun _ => none,
   fun p => if p = ["u_MDS"] then [FsEntry.fault, FsEntry.file 1048576] else []⟩

/-- Counterexample to claim C7: a unit whose traversal raises on its first
entry and then holds a 1048576-byte file is reported as 0 MB, while the
claim (the remaining entries are still traversed, only the faulting entry
contributes zero) demands 1 MB: the single try block of get_folder_size
wraps the whole loop, so the first fault ends the traversal. -/
theorem c7_cex_traversal_aborts :
    get_folder_size fsFaultTree ["u_MDS"] = 0 ∧
    (sumFileSizes ((fsFaultTree.tree ["u_MDS"]).filter liveEntry) : ℚ) / 1024 ^ 2 = 1 := by
  constructor
  · show (sumUntilFault (fsFaultTree.tree ["u_MDS"]) : ℚ) / 1024 ^ 2 = 0
    norm_num [fsFaultTree, sumUntilFault]
  · norm_num [fsFaultTree, sumFileSizes, entrySize, liveEntry]

/-- Claim C7 as amended: a traversal fault never raises out of
get_folder_size and the result is always at least 0 megabytes (total bytes
divided by 1024 squared), but the first fault ends the traversal: the
entries before it contribute their sizes and the faulting entry together
with every later entry contributes zero. -/
theorem c7_size_probe (fs : FS) (folder : FPath) :
    get_folder_size fs folder =
      (sumFileSizes ((fs.tree folder).takeWhile liveEntry) : ℚ) / 1024 ^ 2 ∧
    0 ≤ get_folder_size fs folder := by
  constructor
  · unfold get_folder_size
    rw [sumUntilFault_eq_takeWhile]
  · unfold get_folder_size
    positivity

/-- Claim C9: the unit locator returns exactly the immediate children of
the root that are directories whose name ends with the suffix marker, and
returns the empty list rather than an error when no child qualifies. -/
theorem c9_unit_locator (fs : FS) :
    (∀ n : String, [n] ∈ get_protein_folders fs ↔
      ((n, true) ∈ fs.listing ∧ strEndsWith n "_MDS" = true)) ∧
    ((∀ e ∈ fs.listing, ¬(e.2 = true ∧ strEndsWith e.1 "_MDS" = true)) →
      get_protein_folders fs = []) := by
  constructor
  · intro n
    unfold get_protein_folders
    simp only [List.mem_map, List.mem_filter]
    constructor
    · rintro ⟨⟨a, b⟩, ⟨he, hq⟩, heq⟩
      simp only [List.cons.injEq, and_true] at heq
      rw [Bool.and_eq_true] at hq
      subst heq
      obtain rfl : b = true := hq.1
      exact ⟨he, hq.2⟩
    · rintro ⟨hin, hend⟩
      exact ⟨(n, true), ⟨hin, by simp [hend]⟩, rfl⟩
  · intro h
    unfold get_protein_folders
    have hnil : fs.listing.filter (fun e => e.2 && strEndsWith e.1 "_MDS") = [] := by
      rw [List.filter_eq_nil_iff]
      intro e he
      simp only [Bool.and_eq_true]
      intro hq
      exact h e he ⟨hq.1, hq.2⟩
    rw [hnil]
    rfl

/-- Concrete root listing holding a directory named Foo_MDX and a plain
file named Bar_MDS, neither of which qualifies as a unit. -/
def fsNoUnits : FS :=
  ⟨[("Foo_MDX", true), ("Bar_MDS", false)], fun _ => false, fun _ => none, fun _ => []⟩

/-- Witness for claim C9: on a root holding only the directory Foo_MDX and
the plain file Bar_MDS, the unit locator returns the empty list. -/
theorem c9_unit_locator_witness : get_protein_folders fsNoUnits = [] :=
  (c9_unit_locator fsNoUnits).2 (by decide)

/-- Faults that can be raised inside one pipeline run and are not caught by
any handler on their way out of job: input_dir.iterdir raising in
get_protein_folders (line 41), output_dir.mkdir (line 161), one of the
three plt.savefig calls (lines 172, 186, 199), and the report file write
(lines 218-220). Per-file evidence-read faults, size-traversal faults,
attachment faults and SMTP faults are caught where they arise and are
therefore absent here. -/
inductive Fault
  | locateFault
  | mkdirFault
  | plotFault
  | reportWriteFault
deriving DecidableEq

/-- The fault environment of one pipeline run: the observed file system
plus, for each operation of the run that Python does not guard with a
handler reaching job, whether that operation raises. smtpFails models a
failure of the SMTP transaction, which send_email_report does catch. -/
structure World where
  fs : FS
  rootListFails : Bool
  mkdirFails : Bool
  plot1Fails : Bool
  plot2Fails : Bool
  plot3Fails : Bool
  reportWriteFails : Bool
  smtpFails : Bool

/-- The artifacts of one call to generate_monitoring_report_and_plots: the
per-unit results and whether each plot image and the text report were
written. The numeric report content is a deterministic function of the
results (see aggregate below); a raised fault abandons the run as the
Python exception does. -/
structure GenResult where
  results : List UnitResult
  plot1Saved : Bool
  plot2Saved : Bool
  plot3Saved : Bool
  reportSaved : Bool
deriving DecidableEq

/-- Embedding of generate_monitoring_report_and_plots (lines 111-222):
list the unit folders (a listing fault propagates); with zero units, log a
warning and return with no artifacts (lines 122-124); otherwise process
every unit (the executor.map fan-out, whose input-order collection equals
the sequential map: see the C8 theorem), then create the output directory,
save the three plots and write the text report, each step propagating its
fault. -/
def generate_monitoring_report_and_plots (w : World) : Except Fault GenResult :=
  if w.rootListFails then Except.error Fault.locateFault else
  let protein_folders := get_protein_folders w.fs
  if protein_folders.length == 0 then Except.ok ⟨[], false, false, false, false⟩ else
  let results := protein_folders.map (process_folder w.fs)
  if w.mkdirFails then Except.error Fault.mkdirFault else
  if w.plot1Fails then Except.error Fault.plotFault else
  if w.plot2Fails then Except.error Fault.plotFault else
  if w.plot3Fails then Except.error Fault.plotFault else
  if w.reportWriteFails then Except.error Fault.reportWriteFault else
  Except.ok ⟨results, true, true, true, true⟩

/-- Embedding of send_email_report (lines 224-267): attachment faults are
caught per file and the SMTP block is wrapped in its own handler, so the
call never raises; it returns whether the email was delivered. -/
def send_email_report (w : World) : Bool := !w.smtpFails

/-- The outcome of one completed call to job (lines 323-337): the report
artifacts and whether the notification email was delivered. -/
structure JobResult where
  gen : GenResult
  emailSent : Bool
deriving DecidableEq

/-- Embedding of job (lines 323-337): generate the report and plots, then
unconditionally send the email; a fault raised by the generation step
propagates out of job, which has no handler of its own. -/
def job (w : World) : Except Fault JobResult :=
  match generate_monitoring_report_and_plots w with
  | Except.error e => Except.error e
  | Except.ok g => Except.ok ⟨g, send_email_report w⟩

/-- Whether one scheduler-loop tick that runs job crashes the loop: the
while loop of main (lines 343-349) calls job with no handler, so the tick
crashes exactly when job raises. -/
def tickCrashes (w : World) : Bool :=
  match job w with
  | Except.error _ => true
  | Except.ok _ => false

/-- Concrete file system holding one qualifying unit directory. -/
def fsOneUnit : FS :=
  ⟨[("P_MDS", true)], fun _ => false, fun _ => none, fun _ => []⟩

/-- Fault environment: one unit present, the report file write raises,
everything else succeeds. -/
def wReportWriteFault : World :=
  ⟨fsOneUnit, false, false, false, false, false, true, false⟩

/-- Counterexample to claim C3: a report-write fault inside the pipeline
run is not absorbed; it propagates out of job and crashes the scheduler
loop tick, so not every pipeline fault lets the loop continue. -/
theorem c3_cex_report_write_crashes : tickCrashes wReportWriteFault = true := by decide

/-- Claim C3 as amended: a scheduler-loop tick crashes exactly when a fault
escapes report generation: a unit-listing fault, or (with at least one unit
present) an output-directory creation, plot-save or report-write fault.
Evidence-read, size-traversal, attachment and SMTP notification faults are
absorbed where they arise and never crash the tick (smtpFails does not
appear in the characterization). -/
theorem c3_tick_crash_characterization (w : World) :
    tickCrashes w =
      (w.rootListFails ||
        (!((get_protein_folders w.fs).length == 0) &&
          (w.mkdirFails || w.plot1Fails || w.plot2Fails || w.plot3Fails ||
            w.reportWriteFails))) := by
  obtain ⟨fs, rl, mk, p1, p2, p3, rwf, sm⟩ := w
  simp only [tickCrashes, job, generate_monitoring_report_and_plots]
  cases rl <;> cases mk <;> cases p1 <;> cases p2 <;> cases p3 <;> cases rwf <;>
    cases hz : (get_protein_folders fs).length == 0 <;> simp [hz]

/-- Fault environment: no qualifying units, every operation succeeds. -/
def wNoUnits : World :=
  ⟨fsNoUnits, false, false, false, false, false, false, false⟩

/-- Counterexample to claim C4: with zero qualifying unit directories the
run writes no report and no plots, but job still calls send_email_report
unconditionally, so a notification is sent for that run. -/
theorem c4_cex_notification_still_sent :
    get_protein_folders wNoUnits.fs = [] ∧
    job wNoUnits = Except.ok ⟨⟨[], false, false, false, false⟩, true⟩ := by
  constructor
  · decide
  · rfl

/-- Claim C4 as amended: when the listing succeeds and yields zero
qualifying units, the run short-circuits after a warning with no text
report, no plot files and no per-unit results, but the notification step
still runs: the email is delivered exactly when the SMTP transaction
succeeds. -/
theorem c4_zero_units (w : World) (h1 : w.rootListFails = false)
    (h2 : get_protein_folders w.fs = []) :
    job w = Except.ok ⟨⟨[], false, false, false, false⟩, !w.smtpFails⟩ := by
  unfold job generate_monitoring_report_and_plots send_email_report
  rw [h1, h2]
  simp

/-- Fault environment: no qualifying units and a failing SMTP transaction. -/
def wNoUnitsSmtpFault : World :=
  ⟨fsNoUnits, false, false, false, false, false, false, true⟩

/-- Witness for the amended claim C4: zero units with a failing SMTP send
still completes the run, with no artifacts and no delivered email. -/
theorem c4_zero_units_witness :
    job wNoUnitsSmtpFault = Except.ok ⟨⟨[], false, false, false, false⟩, false⟩ :=
  c4_zero_units wNoUnitsSmtpFault rfl (by decide)

/-- One observable event of a scheduler-loop tick. -/
inductive LoopEvent
  | triggerQuery
  | pipelineRun
  | sleep60

/-- True exactly for the pipeline-run event. -/
def isPipelineRun : LoopEvent → Bool
  | LoopEvent.pipelineRun => true
  | _ => false

/-- The event sequence of one iteration of the while loop of main (lines
343-349), given the two tick conditions: the loop queries the trigger
source (check_email_for_request, which catches its own faults and returns
a boolean); if a request is pending it calls job at once; then
schedule.run_pending calls job again if the fixed-interval schedule is
due; finally the loop sleeps 60 seconds. The direct job call does not
consume or postpone the pending schedule entry. -/
def tickTrace (triggerPending scheduleDue : Bool) : List LoopEvent :=
  [LoopEvent.triggerQuery]
    ++ (if triggerPending then [LoopEvent.pipelineRun] else [])
    ++ (if scheduleDue then [LoopEvent.pipelineRun] else [])
    ++ [LoopEvent.sleep60]

/-- Number of pipeline runs started in one tick of the scheduler loop. -/
def pipelineRunsOnTick (triggerPending scheduleDue : Bool) : Nat :=
  (tickTrace triggerPending scheduleDue).countP isPipelineRun

/-- Counterexample to claim C2: on a tick where the fixed-interval schedule
is due and the trigger source reports a pending request, two pipeline runs
occur, not exactly one: the trigger branch calls job directly and
schedule.run_pending then runs it again. -/
theorem c2_cex_double_run :
    pipelineRunsOnTick true true = 2 ∧ ¬pipelineRunsOnTick true true = 1 := by
  constructor
  · decide
  · decide

/-- Claim C2 as amended: a tick starts two pipeline runs when both the
schedule is due and a trigger is pending, one run when exactly one of the
two conditions holds, and none when neither holds. -/
theorem c2_runs_per_tick :
    pipelineRunsOnTick true true = 2 ∧
    pipelineRunsOnTick true false = 1 ∧
    pipelineRunsOnTick false true = 1 ∧
    pipelineRunsOnTick false false = 0 := by
  refine ⟨?_, ?_, ?_, ?_⟩ <;> decide

/-- The global aggregate computed from the per-unit results (lines 130-158):
the per-stage lists of completed unit names in result order, the unit
count, and the per-stage completion percentages. Rational division by zero
yields 0, matching the guarded zero-unit convention of the local script
(MD_local_progress_report.py lines 94-97); the v2 script never divides
when the count is zero because of its early return. -/
structure Aggregate where
  total_proteins : Nat
  em_completed : List String
  nvt_completed : List String
  npt_completed : List String
  md_completed : List String
  em_percentage : ℚ
  nvt_percentage : ℚ
  npt_percentage : ℚ
  md_percentage : ℚ
deriving DecidableEq

/-- Aggregation of a list of per-unit results, as in lines 139-158. -/
def aggregate (results : List UnitResult) : Aggregate :=
  let em := (results.filter (fun r => r.em_done)).map (fun r => r.name)
  let nvt := (results.filter (fun r => r.nvt_done)).map (fun r => r.name)
  let npt := (results.filter (fun r => r.npt_done)).map (fun r => r.name)
  let md := (results.filter (fun r => r.md_done)).map (fun r => r.name)
  let total := results.length
  ⟨total, em, nvt, npt, md,
    ((em.length : ℚ) / (total : ℚ)) * 100,
    ((nvt.length : ℚ) / (total : ℚ)) * 100,
    ((npt.length : ℚ) / (total : ℚ)) * 100,
    ((md.length : ℚ) / (total : ℚ)) * 100⟩

/-- Sequential reference semantics: process_folder applied to the unit list
in order, as in MD_local_progress_report.py lines 71-91. -/
def seqResults (fs : FS) (folders : List FPath) : List UnitResult :=
  folders.map (process_folder fs)

/-- Completion-order semantics of the thread-pool fan-out (line 128): the
tasks finish in the order given by the index list; each finished task i
deposits the result of process_folder on unit i into the slot keyed by i.
Every write to a slot carries the same value, so the map records the
result of unit i whenever task i appears in the completion order. -/
def runTasks (fs : FS) (folders : List FPath) : List Nat → Nat → Option UnitResult
  | [], _ => none
  | i :: rest, j =>
      if j = i then some (process_folder fs (folders.getD i [])) else
        runTasks fs folders rest j

/-- Embedding of the concurrent executor.map collection (lines 126-128):
whatever order the tasks complete in, the results are read back keyed by
input position, not by arrival. -/
def concResults (fs : FS) (folders : List FPath) (order : List Nat) : List UnitResult :=
  (List.range folders.length).filterMap (runTasks fs folders order)

/-- A task index that appears in the completion order has its slot filled
with the result of its unit. -/
theorem runTasks_eq_of_mem (fs : FS) (folders : List FPath) (order : List Nat)
    (i : Nat) (h : i ∈ order) :
    runTasks fs folders order i = some (process_folder fs (folders.getD i [])) := by
  induction order with
  | nil => cases h
  | cons a rest ih =>
    unfold runTasks
    by_cases hia : i = a
    · subst hia
      simp
    · rw [if_neg hia]
      rcases List.mem_cons.mp h with hh | hh
      · exact absurd hh hia
      · exact ih hh

/-- filterMap collapses to map when the partial function is total on the
list. -/
theorem filterMap_eq_map_on {α β : Type} (l : List α) (g : α → Option β) (f : α → β)
    (h : ∀ a ∈ l, g a = some (f a)) : l.filterMap g = l.map f := by
  induction l with
  | nil => rfl
  | cons a t ih =>
    rw [List.filterMap_cons, h a (List.mem_cons_self a t), List.map_cons,
      ih (fun x hx => h x (List.mem_cons_of_mem a hx))]

/-- Reading a list back through positional lookup reproduces the list. -/
theorem map_getD_range {β : Type} (l : List FPath) (f : FPath → β) :
    (List.range l.length).map (fun i => f (l.getD i [])) = l.map f := by
  induction l with
  | nil => rfl
  | cons a t ih =>
    rw [List.length_cons, List.range_succ_eq_map, List.map_cons, List.map_map]
    have hcomp : ((fun i => f ((a :: t).getD i [])) ∘ Nat.succ) =
        (fun i => f (t.getD i [])) := by
      funext i
      simp
    rw [hcomp, ih, List.map_cons]
    simp

/-- Claim C8: for every unit list and every completion order of the fan-out
that executes each task (a permutation of the task indices), collecting the
concurrent results by input position yields the same per-unit result list
as the sequential pass, and hence the same global counts and percentages. -/
theorem c8_concurrent_eq_sequential (fs : FS) (folders : List FPath) (order : List Nat)
    (h : List.Perm order (List.range folders.length)) :
    concResults fs folders order = seqResults fs folders ∧
    aggregate (concResults fs folders order) = aggregate (seqResults fs folders) := by
  have hmem : ∀ i ∈ List.range folders.length,
      runTasks fs folders order i = some (process_folder fs (folders.getD i [])) := by
    intro i hi
    exact runTasks_eq_of_mem fs folders order i (h.mem_iff.mpr hi)
  have h1 : concResults fs folders order = seqResults fs folders := by
    unfold concResults seqResults
    rw [filterMap_eq_map_on _ _ (fun i => process_folder fs (folders.getD i [])) hmem]
    exact map_getD_range folders (process_folder fs)
  exact ⟨h1, by rw [h1]⟩

/-- Witness for claim C8: with two units processed in reversed completion
order, the concurrent collection equals the sequential result list. -/
theorem c8_concurrent_eq_sequential_witness :
    concResults fsAllDone [["P_MDS"], ["Q_MDS"]] [1, 0] =
      seqResults fsAllDone [["P_MDS"], ["Q_MDS"]] :=
  (c8_concurrent_eq_sequential fsAllDone [["P_MDS"], ["Q_MDS"]] [1, 0]
    (by decide)).1

end CENO
